import Mathlib

/-!
Shallow embedding of `src/rpi/pi.c` from viam-modules/raspberry-pi.

The C file is a small bridge over the pigpiod client library:
* `interruptCallback(pi, gpio, level, tick)` forwards an edge notification to
  the host handler `pigpioInterruptCallback(gpio, level, tick)`, except that a
  notification with `level == 2` (the pigpio watchdog sentinel) is discarded
  with a bare `return;`.  (Line 12 of the source carries a stray token after
  the opening brace; the guarded branch consists of the comment and the
  `return;` statement.)
* `setupInterrupt(pi, gpio)` calls `set_mode(pi, gpio, PI_INPUT)`, then
  `set_pull_up_down(pi, gpio, PI_PUD_UP)`, then
  `callback(pi, gpio, EITHER_EDGE, interruptCallback)`, returning early with
  the daemon status whenever one of the first two calls returns non-zero.
* `setPullUp` / `setPullDown` / `setPullNone` each issue one
  `set_pull_up_down` call with `PI_PUD_UP` / `PI_PUD_DOWN` / `PI_PUD_OFF`.
* `teardownInterrupt(pi, gpio)` issues `callback(pi, gpio, EITHER_EDGE, NULL)`
  and returns its status.

The pigpiod daemon is modelled as a mock collaborator: a record of pure
status functions, one per library entry point, together with an explicit
trace of the calls each bridge function issues.  The numeric constants are
the ones `pigpiod_if2.h` defines: `PI_INPUT = 0`, `PI_PUD_OFF = 0`,
`PI_PUD_DOWN = 1`, `PI_PUD_UP = 2`, `EITHER_EDGE = 2`.
-/

namespace RaspberryPi

def PI_INPUT : Int := 0

def PI_PUD_OFF : Int := 0

def PI_PUD_DOWN : Int := 1

def PI_PUD_UP : Int := 2

def EITHER_EDGE : Int := 2

/-- The event the host handler `pigpioInterruptCallback(gpio, level, tick)`
receives: the connection handle is not part of it. -/
structure EdgeEvent where
  gpio : Nat
  level : Nat
  tick : Nat
deriving DecidableEq

/-- `interruptCallback` from pi.c: a watchdog notification (`level == 2`) is
discarded; any other notification is forwarded to the host handler with the
`(gpio, level, tick)` triple unchanged.  The result records the handler
invocation this delivery performs: `none` means the handler is not invoked. -/
def interruptCallback (pi : Int) (gpio level tick : Nat) : Option EdgeEvent :=
  if level = 2 then
    none
  else
    some ⟨gpio, level, tick⟩

/-- One raw notification as the daemon delivers it to `interruptCallback`:
connection handle, gpio, level and tick. -/
structure RawNotif where
  pi : Int
  gpio : Nat
  level : Nat
  tick : Nat
deriving DecidableEq

/-- The event a raw notification would carry to the handler. -/
def toEvent (n : RawNotif) : EdgeEvent :=
  ⟨n.gpio, n.level, n.tick⟩

/-- Delivering a sequence of raw notifications through `interruptCallback`:
the list of handler invocations, in arrival order. -/
def dispatchAll (ns : List RawNotif) : List EdgeEvent :=
  ns.filterMap (fun n => interruptCallback n.pi n.gpio n.level n.tick)

/-- One call the bridge issues to the pigpiod daemon.  For `callback`, the
final flag records whether a non-NULL function pointer is passed (`true` for
`interruptCallback`, `false` for `NULL`). -/
inductive DaemonCall where
  | set_mode (pi gpio mode : Int)
  | set_pull_up_down (pi gpio pud : Int)
  | callback (pi gpio edge : Int) (hasHandler : Bool)
deriving DecidableEq

/-- Is this daemon call a registration (a `callback` call installing a
handler)? -/
def DaemonCall.isRegistration : DaemonCall → Bool
  | .callback _ _ _ true => true
  | _ => false

/-- Is this daemon call a cancellation (a `callback` call passing NULL)? -/
def DaemonCall.isCancellation : DaemonCall → Bool
  | .callback _ _ _ false => true
  | _ => false

/-- Is this daemon call a pull-resistor configuration call? -/
def DaemonCall.isPullConfig : DaemonCall → Bool
  | .set_pull_up_down _ _ _ => true
  | _ => false

/-- The mock pigpiod collaborator: the status each library call returns, as a
pure function of its arguments. -/
structure Daemon where
  set_mode : Int → Int → Int → Int
  set_pull_up_down : Int → Int → Int → Int
  callback : Int → Int → Int → Bool → Int

/-- A daemon that accepts every call with status 0. -/
def okDaemon : Daemon :=
  ⟨fun _ _ _ => 0, fun _ _ _ => 0, fun _ _ _ _ => 0⟩

/-- A daemon whose `set_mode` fails with status -7 while everything else
succeeds. -/
def failModeDaemon : Daemon :=
  ⟨fun _ _ _ => -7, fun _ _ _ => 0, fun _ _ _ _ => 0⟩

/-- A daemon whose `set_pull_up_down` fails with status -9 while everything
else succeeds. -/
def failPullDaemon : Daemon :=
  ⟨fun _ _ _ => 0, fun _ _ _ => -9, fun _ _ _ _ => 0⟩

/-- `setupInterrupt` from pi.c: `set_mode(pi, gpio, PI_INPUT)`, returning its
status on failure; then `set_pull_up_down(pi, gpio, PI_PUD_UP)`, returning its
status on failure; then `callback(pi, gpio, EITHER_EDGE, interruptCallback)`,
whose result (callback id or negative error) is returned.  The second
component is the trace of daemon calls issued. -/
def setupInterrupt (d : Daemon) (pi gpio : Int) : Int × List DaemonCall :=
  let result := d.set_mode pi gpio PI_INPUT
  if result ≠ 0 then
    (result, [DaemonCall.set_mode pi gpio PI_INPUT])
  else
    let result2 := d.set_pull_up_down pi gpio PI_PUD_UP
    if result2 ≠ 0 then
      (result2,
       [DaemonCall.set_mode pi gpio PI_INPUT,
        DaemonCall.set_pull_up_down pi gpio PI_PUD_UP])
    else
      (d.callback pi gpio EITHER_EDGE true,
       [DaemonCall.set_mode pi gpio PI_INPUT,
        DaemonCall.set_pull_up_down pi gpio PI_PUD_UP,
        DaemonCall.callback pi gpio EITHER_EDGE true])

/-- `setPullUp` from pi.c. -/
def setPullUp (d : Daemon) (pi gpio : Int) : Int × List DaemonCall :=
  (d.set_pull_up_down pi gpio PI_PUD_UP,
   [DaemonCall.set_pull_up_down pi gpio PI_PUD_UP])

/-- `setPullDown` from pi.c. -/
def setPullDown (d : Daemon) (pi gpio : Int) : Int × List DaemonCall :=
  (d.set_pull_up_down pi gpio PI_PUD_DOWN,
   [DaemonCall.set_pull_up_down pi gpio PI_PUD_DOWN])

/-- `setPullNone` from pi.c. -/
def setPullNone (d : Daemon) (pi gpio : Int) : Int × List DaemonCall :=
  (d.set_pull_up_down pi gpio PI_PUD_OFF,
   [DaemonCall.set_pull_up_down pi gpio PI_PUD_OFF])

/-- `teardownInterrupt` from pi.c: one `callback(pi, gpio, EITHER_EDGE, NULL)`
call, whose status is returned. -/
def teardownInterrupt (d : Daemon) (pi gpio : Int) : Int × List DaemonCall :=
  (d.callback pi gpio EITHER_EDGE false,
   [DaemonCall.callback pi gpio EITHER_EDGE false])

/-- The number of registration calls in a daemon-call trace. -/
def regCount (t : List DaemonCall) : Nat :=
  (t.filter DaemonCall.isRegistration).length

/-- The trace issued by `n` consecutive `teardownInterrupt` calls on the same
pin. -/
def repeatTeardown (d : Daemon) (pi gpio : Int) : Nat → List DaemonCall
  | 0 => []
  | n + 1 => (teardownInterrupt d pi gpio).2 ++ repeatTeardown d pi gpio n

/-- Key fact behind claim C2: the handler-invocation stream equals the
arrival-ordered non-watchdog notifications, mapped to their events. -/
theorem dispatchAll_eq_filter (ns : List RawNotif) :
    dispatchAll ns = (ns.filter (fun n => !(n.level == 2))).map toEvent := by
  induction ns with
  | nil => rfl
  | cons n ns ih =>
    by_cases hl : n.level = 2 <;>
      simp [dispatchAll, List.filterMap_cons, List.filter_cons,
        interruptCallback, toEvent, hl, dispatchAll] at ih ⊢ <;>
      exact ih

/-- Claim C1: a raw notification with rawLevel 2 (the watchdog sentinel) is
discarded by the dispatch filter: the host handler is not invoked, no
EdgeEvent is constructed, and no error is produced. -/
theorem C1_watchdog_discarded (pi : Int) (gpio tick : Nat) :
    interruptCallback pi gpio 2 tick = none := rfl

/-- Claim C2: for a sequence of raw notifications mixing levels 0, 1 and 2,
the handler is invoked exactly once per level-0 or level-1 notification, with
exactly that notification's (pin, level, tick), in arrival order, and zero
times for level-2 notifications: the invocation stream is precisely the
arrival-ordered non-watchdog notifications mapped to their events. -/
theorem C2_handler_per_edge (ns : List RawNotif)
    (h : ∀ n ∈ ns, n.level = 0 ∨ n.level = 1 ∨ n.level = 2) :
    dispatchAll ns = (ns.filter (fun n => !(n.level == 2))).map toEvent :=
  dispatchAll_eq_filter ns

/-- Witness for C2 at the scenario of spec section 8: levels 1, 2, 0 on
pin 17. -/
theorem C2_handler_per_edge_witness :
    dispatchAll [⟨0, 17, 1, 1000⟩, ⟨0, 17, 2, 1001⟩, ⟨0, 17, 0, 1002⟩] =
      (([⟨0, 17, 1, 1000⟩, ⟨0, 17, 2, 1001⟩,
         ⟨0, 17, 0, 1002⟩] : List RawNotif).filter
        (fun n => !(n.level == 2))).map toEvent :=
  C2_handler_per_edge _ (by decide)

/-- Claim C9: the dispatch filter drops the connection identity: the handler
invocation depends only on (pin, level, tick), so two connections delivering
the same triple produce identical invocations. -/
theorem C9_connection_identity_dropped (pi₁ pi₂ : Int)
    (gpio level tick : Nat) :
    interruptCallback pi₁ gpio level tick =
      interruptCallback pi₂ gpio level tick := rfl

/-- Claim C10: the dispatch filter suppresses exactly the level value 2: any
raw notification whose level differs from 2 — including values greater than
2 — invokes the handler once with the level passed through unchanged. -/
theorem C10_only_level_two_suppressed (pi : Int) (gpio level tick : Nat)
    (h : level ≠ 2) :
    interruptCallback pi gpio level tick = some ⟨gpio, level, tick⟩ := by
  simp [interruptCallback, h]

/-- Witness for C10 at level 7, a value that is neither 0, 1 nor 2. -/
theorem C10_only_level_two_suppressed_witness :
    interruptCallback 0 5 7 42 = some ⟨5, 7, 42⟩ :=
  C10_only_level_two_suppressed 0 5 7 42 (by decide)

/-- Claim C3: `setupInterrupt` performs its daemon calls in the order
set-input-mode, then set-pull-bias, then edge registration; a non-zero status
from either of the first two calls is returned immediately as the error code
and the registration call is not issued. -/
theorem C3_subscribe_order_fail_fast (d : Daemon) (pi gpio : Int) :
    (d.set_mode pi gpio PI_INPUT ≠ 0 →
      setupInterrupt d pi gpio =
        (d.set_mode pi gpio PI_INPUT,
         [DaemonCall.set_mode pi gpio PI_INPUT])) ∧
    (d.set_mode pi gpio PI_INPUT = 0 →
      d.set_pull_up_down pi gpio PI_PUD_UP ≠ 0 →
      setupInterrupt d pi gpio =
        (d.set_pull_up_down pi gpio PI_PUD_UP,
         [DaemonCall.set_mode pi gpio PI_INPUT,
          DaemonCall.set_pull_up_down pi gpio PI_PUD_UP])) ∧
    (d.set_mode pi gpio PI_INPUT = 0 →
      d.set_pull_up_down pi gpio PI_PUD_UP = 0 →
      setupInterrupt d pi gpio =
        (d.callback pi gpio EITHER_EDGE true,
         [DaemonCall.set_mode pi gpio PI_INPUT,
          DaemonCall.set_pull_up_down pi gpio PI_PUD_UP,
          DaemonCall.callback pi gpio EITHER_EDGE true])) := by
  refine ⟨fun h1 => ?_, fun h1 h2 => ?_, fun h1 h2 => ?_⟩
  · simp [setupInterrupt, h1]
  · simp [setupInterrupt, h1, h2]
  · simp [setupInterrupt, h1, h2]

/-- Witness for C3: all three branches at concrete daemons on pin 17: a
failing set-mode stops before the pull call, a failing pull stops before
registration, and full success issues all three calls in order. -/
theorem C3_subscribe_order_fail_fast_witness :
    setupInterrupt failModeDaemon 0 17 =
      (-7, [DaemonCall.set_mode 0 17 PI_INPUT]) ∧
    setupInterrupt failPullDaemon 0 17 =
      (-9, [DaemonCall.set_mode 0 17 PI_INPUT,
            DaemonCall.set_pull_up_down 0 17 PI_PUD_UP]) ∧
    setupInterrupt okDaemon 0 17 =
      (0, [DaemonCall.set_mode 0 17 PI_INPUT,
           DaemonCall.set_pull_up_down 0 17 PI_PUD_UP,
           DaemonCall.callback 0 17 EITHER_EDGE true]) :=
  ⟨(C3_subscribe_order_fail_fast failModeDaemon 0 17).1 (by decide),
   (C3_subscribe_order_fail_fast failPullDaemon 0 17).2.1 (by decide)
     (by decide),
   (C3_subscribe_order_fail_fast okDaemon 0 17).2.2 (by decide) (by decide)⟩

/-- Counterexample to claim C4: with a daemon that accepts every call, a
second `setupInterrupt` on pin 17 does not fail with any error — it returns
status 0 — and it issues a fresh registration call, so across the two calls
the daemon sees two registrations, not an unchanged count of one. -/
theorem C4_counterexample_resubscribe_registers_again :
    (setupInterrupt okDaemon 0 17).1 = 0 ∧
    regCount ((setupInterrupt okDaemon 0 17).2 ++
      (setupInterrupt okDaemon 0 17).2) = 2 := by decide

/-- Claim C4 as amended: `setupInterrupt` keeps no per-pin subscription state
and has no AlreadySubscribed error: a repeated call on an already-registered
pin is processed exactly like the first, issuing exactly one fresh
registration call to the daemon whenever the mode and pull calls succeed
(silently replacing the prior registration). -/
theorem C4_amended_stateless_resubscribe (d : Daemon) (pi gpio : Int)
    (h1 : d.set_mode pi gpio PI_INPUT = 0)
    (h2 : d.set_pull_up_down pi gpio PI_PUD_UP = 0) :
    regCount (setupInterrupt d pi gpio).2 = 1 ∧
    (setupInterrupt d pi gpio).1 = d.callback pi gpio EITHER_EDGE true := by
  simp [setupInterrupt, h1, h2, regCount, DaemonCall.isRegistration,
    List.filter]

/-- Witness for the amended C4 at the all-accepting daemon on pin 17. -/
theorem C4_amended_stateless_resubscribe_witness :
    regCount (setupInterrupt okDaemon 0 17).2 = 1 ∧
    (setupInterrupt okDaemon 0 17).1 = okDaemon.callback 0 17 EITHER_EDGE
      true :=
  C4_amended_stateless_resubscribe okDaemon 0 17 (by decide) (by decide)

/-- Counterexample to claim C5: in a session where the caller first
configures pull-down on pin 17 via `setPullDown`, `setupInterrupt` still
issues a pull-up call, overwriting the caller's configured mode: the session
trace contains the pull-down call followed by a pull-up call. -/
theorem C5_counterexample_pull_up_overwrites :
    (setPullDown okDaemon 0 17).2 ++ (setupInterrupt okDaemon 0 17).2 =
      [DaemonCall.set_pull_up_down 0 17 PI_PUD_DOWN,
       DaemonCall.set_mode 0 17 PI_INPUT,
       DaemonCall.set_pull_up_down 0 17 PI_PUD_UP,
       DaemonCall.callback 0 17 EITHER_EDGE true] := by decide

/-- Claim C5 as amended: `setupInterrupt` unconditionally sets the pull bias
to Up whenever the mode call succeeds — the pull-up call appears in the
trace regardless of any pull mode the caller configured earlier in the
session. -/
theorem C5_amended_always_pull_up (d : Daemon) (pi gpio : Int)
    (h1 : d.set_mode pi gpio PI_INPUT = 0) :
    DaemonCall.set_pull_up_down pi gpio PI_PUD_UP ∈
      (setupInterrupt d pi gpio).2 := by
  by_cases h2 : d.set_pull_up_down pi gpio PI_PUD_UP = 0 <;>
    simp [setupInterrupt, h1, h2]

/-- Witness for the amended C5 at the all-accepting daemon on pin 17. -/
theorem C5_amended_always_pull_up_witness :
    DaemonCall.set_pull_up_down 0 17 PI_PUD_UP ∈
      (setupInterrupt okDaemon 0 17).2 :=
  C5_amended_always_pull_up okDaemon 0 17 (by decide)

/-- Counterexample to claim C6: `teardownInterrupt` keeps no subscription
state — a second call on the already-torn-down pin 17 contacts the daemon
again: across two consecutive calls the daemon receives two cancellation
calls, not one. -/
theorem C6_counterexample_second_teardown_contacts_daemon :
    (teardownInterrupt okDaemon 0 17).2 ++
      (teardownInterrupt okDaemon 0 17).2 =
      [DaemonCall.callback 0 17 EITHER_EDGE false,
       DaemonCall.callback 0 17 EITHER_EDGE false] := by decide

/-- Claim C6 as amended: `teardownInterrupt` is not an idempotent no-op on an
unregistered pin: every call, including each repeated call on the same pin,
issues exactly one cancellation call to the daemon — `n` consecutive calls
issue `n` daemon calls, all of them cancellations. -/
theorem C6_amended_every_teardown_contacts_daemon (d : Daemon)
    (pi gpio : Int) (n : Nat) :
    (repeatTeardown d pi gpio n).length = n ∧
    (repeatTeardown d pi gpio n).filter DaemonCall.isCancellation =
      repeatTeardown d pi gpio n := by
  induction n with
  | zero => exact ⟨rfl, rfl⟩
  | succ n ih =>
    refine ⟨?_, ?_⟩ <;>
      simp [repeatTeardown, teardownInterrupt, List.filter,
        DaemonCall.isCancellation, ih.1, ih.2]

/-- Claim C7: every registration `setupInterrupt` issues requests both edges:
each `callback` call in its trace carries the EITHER_EDGE kind, for every
daemon and every pin — no input produces a single-edge registration. -/
theorem C7_registration_both_edges (d : Daemon) (pi gpio : Int) :
    ((setupInterrupt d pi gpio).2.all (fun c =>
      match c with
      | DaemonCall.callback _ _ e _ => e == EITHER_EDGE
      | _ => true)) = true := by
  by_cases h1 : d.set_mode pi gpio PI_INPUT = 0 <;>
    by_cases h2 : d.set_pull_up_down pi gpio PI_PUD_UP = 0 <;>
    simp [setupInterrupt, h1, h2]

/-- Claim C8: `teardownInterrupt` leaves the pull-resistor bias untouched:
its trace contains no pull-configuration call, for every daemon and pin. -/
theorem C8_teardown_no_pull_call (d : Daemon) (pi gpio : Int) :
    ((teardownInterrupt d pi gpio).2.all
      (fun c => !(DaemonCall.isPullConfig c))) = true := rfl

end RaspberryPi
